import Mathlib

/-!
Verification of the site configuration module `src/config.ts` of the
marpme/blog repository.

The module exports four string literals (SITE_TITLE, SITE_DESCRIPTION,
TWITTER_HANDLE, MY_NAME) and one derived value:

  const BASE_URL = new URL(import.meta.env.SITE);
  export const SITE_URL = BASE_URL.origin;

The only nontrivial semantics is the WHATWG `URL` constructor together with
its `origin` getter.  We embed a computable subset of the WHATWG basic URL
parser sufficient for absolute URLs:

* scheme parsing (ASCII alpha head, alphanumeric / `+` / `-` / `.` tail,
  terminated by `:`), lowercased;
* for URLs with an authority (`//` after the scheme): userinfo stripping at
  the last `@`, host up to the first `:`, decimal port with the WHATWG
  65535 bound, default-port elision (http 80, https 443, ws 80, wss 443,
  ftp 21), forbidden-host-code-point rejection, ASCII domain lowercasing;
* non-special schemes without `//` yield an opaque-path URL;
* `origin` serializes `scheme://host[:port]` for the special tuple-origin
  schemes (http, https, ws, wss, ftp); for `blob:` it applies the WHATWG
  inner-URL rule (parse the URL's path serialization and, when that yields
  an http or https URL, return that inner URL's tuple origin, otherwise the
  opaque origin); everything else (file, data, other non-special schemes)
  serializes the opaque origin as the literal string `"null"`, as the
  WHATWG origin getter does.

Deliberate restrictions of the embedded subset (inputs outside it are
rejected by the embedded parser, so theorems quantified over successfully
parsed inputs stay sound): no percent-decoding or IDNA (hosts are limited to
printable ASCII), no tab/newline/space stripping, no backslash-as-slash
handling for special schemes, no IPv6/IPv4 host forms, and special schemes
must be followed by exactly `//`.
-/

namespace Blog

/-! ## Character classes (by ASCII code point, as in the WHATWG grammar) -/

def isAsciiAlpha (c : Char) : Bool :=
  (65 ≤ c.toNat && c.toNat ≤ 90) || (97 ≤ c.toNat && c.toNat ≤ 122)

def isDigitChar (c : Char) : Bool :=
  48 ≤ c.toNat && c.toNat ≤ 57

/-- Scheme code points: ASCII alphanumeric, `+` (43), `-` (45), `.` (46). -/
def isSchemeChar (c : Char) : Bool :=
  isAsciiAlpha c || isDigitChar c || c.toNat == 43 || c.toNat == 45 || c.toNat == 46

/-- Authority code points: everything up to `/` (47), `?` (63), `#` (35). -/
def isAuthChar (c : Char) : Bool :=
  c.toNat != 47 && c.toNat != 63 && c.toNat != 35

/-- Host code points admitted by the embedding: printable ASCII minus the
WHATWG forbidden host code points `#` `/` `:` `<` `>` `?` `@` `[` `\` `]`
`^` `|` and the forbidden domain code point `%`. -/
def isHostChar (c : Char) : Bool :=
  32 < c.toNat && c.toNat < 127 &&
  c.toNat != 35 && c.toNat != 47 && c.toNat != 58 && c.toNat != 60 &&
  c.toNat != 62 && c.toNat != 63 && c.toNat != 64 && c.toNat != 91 &&
  c.toNat != 92 && c.toNat != 93 && c.toNat != 94 && c.toNat != 124 &&
  c.toNat != 37

/-- ASCII lowercasing of a single code point, as domain-to-ASCII does. -/
def lowerChar (c : Char) : Char :=
  if 65 ≤ c.toNat ∧ c.toNat ≤ 90 then Char.ofNat (c.toNat + 32) else c

theorem toNat_lowerChar_of_upper (c : Char)
    (h1 : 65 ≤ c.toNat) (h2 : c.toNat ≤ 90) :
    (lowerChar c).toNat = c.toNat + 32 := by
  rw [lowerChar, if_pos ⟨h1, h2⟩]
  set k := c.toNat with hk
  interval_cases k <;> rfl

theorem lowerChar_of_not_upper (c : Char)
    (h : ¬(65 ≤ c.toNat ∧ c.toNat ≤ 90)) : lowerChar c = c := by
  rw [lowerChar, if_neg h]

theorem isHostChar_lowerChar (c : Char) (h : isHostChar c = true) :
    isHostChar (lowerChar c) = true := by
  by_cases hu : 65 ≤ c.toNat ∧ c.toNat ≤ 90
  · have ht := toNat_lowerChar_of_upper c hu.1 hu.2
    simp only [isHostChar, Bool.and_eq_true, decide_eq_true_eq, bne_iff_ne,
      ne_eq] at h ⊢
    omega
  · rwa [lowerChar_of_not_upper c hu]

/-! ## Decimal digits for port serialization -/

/-- Big-endian decimal digit characters of a natural number. -/
def decimalChars (n : Nat) : List Char :=
  if n = 0 then ['0'] else ((Nat.digits 10 n).map Nat.digitChar).reverse

/-- Numeric value of a list of decimal digit characters (as the WHATWG port
state accumulates it). -/
def portVal (l : List Char) : Nat :=
  l.foldl (fun a c => 10 * a + (c.toNat - 48)) 0

/-- The components of a parsed URL that the embedding tracks.  Host is
`none` for opaque-path URLs (no authority). -/
structure URLRecord where
  scheme : List Char
  host : Option (List Char)
  port : Option Nat
  path : List Char
  query : Option (List Char)
  fragment : Option (List Char)
deriving DecidableEq, Repr

def httpScheme : List Char := ['h', 't', 't', 'p']
def httpsScheme : List Char := ['h', 't', 't', 'p', 's']
def wsScheme : List Char := ['w', 's']
def wssScheme : List Char := ['w', 's', 's']
def ftpScheme : List Char := ['f', 't', 'p']
def fileScheme : List Char := ['f', 'i', 'l', 'e']

/-- The WHATWG special schemes. -/
def specialSchemes : List (List Char) :=
  [httpScheme, httpsScheme, wsScheme, wssScheme, ftpScheme, fileScheme]

/-- The special schemes whose URLs carry a tuple origin (all special schemes
except `file`). -/
def tupleOriginSchemes : List (List Char) :=
  [httpScheme, httpsScheme, wsScheme, wssScheme, ftpScheme]

def isSpecialScheme (s : List Char) : Prop := s ∈ specialSchemes

instance (s : List Char) : Decidable (isSpecialScheme s) :=
  inferInstanceAs (Decidable (s ∈ specialSchemes))

/-- Default port of a scheme (WHATWG: http 80, https 443, ws 80, wss 443,
ftp 21; file and non-special schemes have none). -/
def defaultPort (s : List Char) : Option Nat :=
  if s = httpScheme then some 80
  else if s = httpsScheme then some 443
  else if s = wsScheme then some 80
  else if s = wssScheme then some 443
  else if s = ftpScheme then some 21
  else none

/-- Split a path-query-fragment remainder into its three components: the
fragment starts at the first `#` (35), the query at the first `?` (63)
before it. -/
def splitPQF (rem : List Char) : List Char × Option (List Char) × Option (List Char) :=
  let beforeFrag := rem.takeWhile (fun c => c.toNat != 35)
  let fragPart := rem.dropWhile (fun c => c.toNat != 35)
  let path := beforeFrag.takeWhile (fun c => c.toNat != 63)
  let queryPart := beforeFrag.dropWhile (fun c => c.toNat != 63)
  (path,
   match queryPart with | _ :: q => some q | [] => none,
   match fragPart with | _ :: f => some f | [] => none)

/-- Drop the userinfo of an authority: everything up to and including the
last `@` (64), when one is present. -/
def stripUserinfo (auth : List Char) : List Char :=
  if auth.any (fun c => c.toNat == 64) then
    (auth.reverse.takeWhile (fun c => c.toNat != 64)).reverse
  else auth

/-- Validate and normalize a raw host.  Special schemes lowercase the
domain and (except `file`) reject an empty host; every host is checked
against the forbidden host code points. -/
def checkHost (scheme raw : List Char) : Option (List Char) :=
  if isSpecialScheme scheme then
    if (raw.map lowerChar).all isHostChar then
      if raw.map lowerChar = [] ∧ scheme ≠ fileScheme then none
      else some (raw.map lowerChar)
    else none
  else
    if raw.all isHostChar then some raw else none

/-- Validate a port part (the authority segment from the first `:` on).
Returns the parsed port, with the scheme's default port elided, or `none`
on a malformed or out-of-range port. -/
def checkPort (scheme pp : List Char) : Option (Option Nat) :=
  match pp with
  | [] => some none
  | c :: pchars =>
    if c.toNat = 58 then
      if pchars = [] then some none
      else if pchars.all isDigitChar then
        if portVal pchars ≤ 65535 then
          if defaultPort scheme = some (portVal pchars) then some none
          else some (some (portVal pchars))
        else none
      else none
    else none

/-- Assemble a URL record once host and port have been validated. -/
def hostPortSplit (scheme raw pp rem : List Char) : Option URLRecord :=
  match checkHost scheme raw, checkPort scheme pp with
  | some hst, some prt =>
    some ⟨scheme, some hst, prt, (splitPQF rem).1, (splitPQF rem).2.1,
      (splitPQF rem).2.2⟩
  | _, _ => none

/-- Split a userinfo-free authority at the first `:` (58) into host and
port part. -/
def authSplit (scheme hostport rem : List Char) : Option URLRecord :=
  hostPortSplit scheme (hostport.takeWhile (fun c => c.toNat != 58))
    (hostport.dropWhile (fun c => c.toNat != 58)) rem

/-- Parse the part after `scheme://`: authority (userinfo, host, port)
followed by path, query and fragment. -/
def parseAuthority (scheme r : List Char) : Option URLRecord :=
  authSplit scheme (stripUserinfo (r.takeWhile isAuthChar)) (r.dropWhile isAuthChar)

/-- Parse the part after `scheme:`.  `//` introduces an authority; without
it a special scheme is rejected (the embedded subset) and a non-special
scheme yields an opaque-path URL. -/
def parseAfterScheme (scheme rest : List Char) : Option URLRecord :=
  match rest with
  | '/' :: '/' :: r => parseAuthority scheme r
  | _ =>
    if isSpecialScheme scheme then none
    else
      let pqf := splitPQF rest
      some ⟨scheme, none, none, pqf.1, pqf.2.1, pqf.2.2⟩

/-- Dispatch on the scheme split: the scheme must be a nonempty run of
scheme code points headed by an ASCII alpha and terminated by `:`. -/
def schemeSplit : List Char → List Char → Option URLRecord
  | c :: cs, ':' :: rest =>
    if isAsciiAlpha c then parseAfterScheme ((c :: cs).map lowerChar) rest
    else none
  | _, _ => none

/-- The embedded WHATWG basic URL parser (absolute URLs, no base). -/
def parseURLChars (l : List Char) : Option URLRecord :=
  schemeSplit (l.takeWhile isSchemeChar) (l.dropWhile isSchemeChar)

/-- The `new URL(s)` constructor of the embedding: `none` models a thrown
`TypeError`. -/
def parseURL (s : String) : Option URLRecord :=
  parseURLChars s.toList

/-- Decimal serialization of an optional port, preceded by `:`. -/
def portSuffix : Option Nat → List Char
  | none => []
  | some n => ':' :: decimalChars n

def nullOriginChars : List Char := ['n', 'u', 'l', 'l']

def blobScheme : List Char := ['b', 'l', 'o', 'b']

/-- The tuple-origin serialization `scheme://host[:port]` of a URL. -/
def tupleOrigin (u : URLRecord) : List Char :=
  u.scheme ++ ':' :: '/' :: '/' :: ((u.host.getD []) ++ portSuffix u.port)

/-- The WHATWG origin rule for `blob:` URLs: parse the URL's path
serialization (for an opaque-path blob URL, the path itself; for a blob
URL with an authority the path starts with `/` or is empty and the parse
fails); when the parse yields an http or https URL, its origin is that
inner URL's tuple origin, otherwise the origin is opaque.  The inner
scheme test also admits `file` in the standard, whose origin is opaque
again, so the fall-through to `"null"` coincides with it. -/
def blobOrigin (path : List Char) : List Char :=
  match parseURLChars path with
  | some v =>
    if v.scheme = httpScheme ∨ v.scheme = httpsScheme then tupleOrigin v
    else nullOriginChars
  | none => nullOriginChars

/-- The WHATWG `origin` getter: `scheme://host[:port]` for tuple-origin
schemes, the inner-URL rule for `blob:`, and the literal serialization
`"null"` of an opaque origin otherwise. -/
def originChars (u : URLRecord) : List Char :=
  if u.scheme ∈ tupleOriginSchemes then tupleOrigin u
  else if u.scheme = blobScheme then blobOrigin u.path
  else nullOriginChars

def originString (u : URLRecord) : String :=
  String.mk (originChars u)

/-! ## The configuration module `src/config.ts` -/

/-- The process environment visible to the module (`import.meta.env`): a
partial map from variable names to string values. -/
structure Env where
  vars : String → Option String

/-- Source: `export const SITE_TITLE = "marpme";` -/
def SITE_TITLE : String := "marpme"

/-- Source: `export const SITE_DESCRIPTION = "Welcome to my awesome blog, ..."` -/
def SITE_DESCRIPTION : String :=
  "Welcome to my awesome blog, talking about web technologies and various related topics"

/-- Source: `export const TWITTER_HANDLE = "@marpme_";` -/
def TWITTER_HANDLE : String := "@marpme_"

/-- Source: `export const MY_NAME = "marpme";` -/
def MY_NAME : String := "marpme"

/-- Source: `const BASE_URL = new URL(import.meta.env.SITE);`.  An absent
`SITE` stringifies to `"undefined"`, which has no scheme, so the
constructor throws either way; both failure paths are `none`. -/
def BASE_URL (e : Env) : Option URLRecord :=
  (e.vars "SITE").bind parseURL

/-- Source: `export const SITE_URL = BASE_URL.origin;` (propagating a
construction failure of `BASE_URL`). -/
def SITE_URL (e : Env) : Option String :=
  (BASE_URL e).map originString

/-- The record of the five exported constants of the module. -/
structure SiteConfig where
  SITE_TITLE : String
  SITE_DESCRIPTION : String
  TWITTER_HANDLE : String
  MY_NAME : String
  SITE_URL : String
deriving DecidableEq, Repr

/-- Evaluation of the whole module against an environment: it succeeds
exactly when the `new URL` call does, and then binds the five exports. -/
def mkConfig (e : Env) : Option SiteConfig :=
  (SITE_URL e).map fun url =>
    { SITE_TITLE := SITE_TITLE
      SITE_DESCRIPTION := SITE_DESCRIPTION
      TWITTER_HANDLE := TWITTER_HANDLE
      MY_NAME := MY_NAME
      SITE_URL := url }

/-- The module's export list: each export name paired with its value as a
function of the environment (`none` models a failed module evaluation). -/
def moduleExports : List (String × (Env → Option String)) :=
  [("SITE_TITLE", fun _ => some SITE_TITLE),
   ("SITE_DESCRIPTION", fun _ => some SITE_DESCRIPTION),
   ("TWITTER_HANDLE", fun _ => some TWITTER_HANDLE),
   ("MY_NAME", fun _ => some MY_NAME),
   ("SITE_URL", SITE_URL)]

/-- The operations the module offers after evaluation: reading one of the
five exported bindings.  `const` bindings admit no writes. -/
inductive ReadConfig
  | title
  | description
  | handle
  | name
  | url
deriving DecidableEq, Repr

/-- Running a read against the constructed configuration returns the field
and the (unchanged) configuration. -/
def runRead (c : SiteConfig) : ReadConfig → String × SiteConfig
  | .title => (c.SITE_TITLE, c)
  | .description => (c.SITE_DESCRIPTION, c)
  | .handle => (c.TWITTER_HANDLE, c)
  | .name => (c.MY_NAME, c)
  | .url => (c.SITE_URL, c)

/-- The configuration state after a sequence of module operations. -/
def runReads (c : SiteConfig) (ops : List ReadConfig) : SiteConfig :=
  ops.foldl (fun s op => (runRead s op).2) c

/-! ## Spec-side origin and helper environments -/

/-- An environment whose only binding is `SITE`. -/
def siteEnv (s : String) : Env :=
  ⟨fun v => if v = "SITE" then some s else none⟩

/-- An environment with no bindings at all. -/
def emptyEnv : Env :=
  ⟨fun _ => none⟩

/-- The configuration produced from `SITE = "https://example.com"`. -/
def exampleConfig : SiteConfig :=
  ⟨"marpme", SITE_DESCRIPTION, "@marpme_", "marpme", "https://example.com"⟩

/-! ## Basic facts about the parser's output -/

theorem tupleOrigin_ne_nil (u : URLRecord) : tupleOrigin u ≠ [] := by
  intro h
  exact List.cons_ne_nil ':' _ (List.append_eq_nil.mp h).2

theorem blobOrigin_ne_nil (p : List Char) : blobOrigin p ≠ [] := by
  unfold blobOrigin
  split
  · split
    · exact tupleOrigin_ne_nil _
    · decide
  · decide

/-- The blob inner-URL rule at work: an http(s) URL in the opaque path
contributes its own tuple origin, anything else leaves the origin opaque. -/
theorem blobOrigin_inner_url :
    (parseURL "blob:https://example.com/x").map originString =
      some "https://example.com" ∧
    (parseURL "blob:foo").map originString = some "null" :=
  ⟨by decide, by decide⟩

theorem originChars_ne_nil (u : URLRecord) : originChars u ≠ [] := by
  rw [originChars]
  split
  · exact tupleOrigin_ne_nil u
  · split
    · exact blobOrigin_ne_nil u.path
    · decide

theorem runRead_snd (c : SiteConfig) (op : ReadConfig) : (runRead c op).2 = c := by
  cases op <;> rfl

theorem runReads_id (c : SiteConfig) (ops : List ReadConfig) :
    runReads c ops = c := by
  induction ops with
  | nil => rfl
  | cons op t ih =>
    rw [runReads, List.foldl_cons, runRead_snd]
    exact ih

theorem string_mk_ne_empty {l : List Char} (h : l ≠ []) : String.mk l ≠ "" := by
  intro he
  exact h (congrArg String.data he)

/-! ## Claim theorems -/

/-- C8: the exported constants SITE_TITLE and MY_NAME are the identical
string "marpme". -/
theorem siteTitle_eq_myName :
    SITE_TITLE = "marpme" ∧ MY_NAME = "marpme" ∧ SITE_TITLE = MY_NAME :=
  ⟨rfl, rfl, rfl⟩

/-- C9: TWITTER_HANDLE equals "@" ++ MY_NAME ++ "_", and in particular its
first character is '@'. -/
theorem twitterHandle_shape :
    TWITTER_HANDLE = "@" ++ MY_NAME ++ "_" ∧
      TWITTER_HANDLE.toList.head? = some '@' := by
  exact ⟨by decide, by decide⟩

/-- C2: for a malformed or absent SITE environment value, evaluation of the
constants module fails, and the failure propagates out of the module (no
recovery to a default configuration happens inside it). -/
theorem mkConfig_fails_on_bad_site :
    ∀ e : Env,
      (e.vars "SITE" = none ∨ ∃ s, e.vars "SITE" = some s ∧ parseURL s = none) →
      mkConfig e = none := by
  intro e h
  rcases h with h | ⟨s, hs, hp⟩
  · simp [mkConfig, SITE_URL, BASE_URL, h]
  · simp [mkConfig, SITE_URL, BASE_URL, hs, hp]

theorem mkConfig_fails_on_bad_site_witness :
    mkConfig (siteEnv "not a url") = none :=
  mkConfig_fails_on_bad_site (siteEnv "not a url")
    (Or.inr ⟨"not a url", rfl, by decide⟩)

/-- C3: the configuration depends on the outside world only through the
SITE environment value: two runs agreeing on SITE produce equal
configurations, and the four literal exports agree across any two
successful runs whatever the environments were. -/
theorem config_depends_only_on_SITE :
    (∀ e₁ e₂ : Env, e₁.vars "SITE" = e₂.vars "SITE" →
      mkConfig e₁ = mkConfig e₂) ∧
    (∀ (e₁ e₂ : Env) (c₁ c₂ : SiteConfig),
      mkConfig e₁ = some c₁ → mkConfig e₂ = some c₂ →
      c₁.SITE_TITLE = c₂.SITE_TITLE ∧
      c₁.SITE_DESCRIPTION = c₂.SITE_DESCRIPTION ∧
      c₁.TWITTER_HANDLE = c₂.TWITTER_HANDLE ∧
      c₁.MY_NAME = c₂.MY_NAME) := by
  constructor
  · intro e₁ e₂ h
    simp only [mkConfig, SITE_URL, BASE_URL, h]
  · intro e₁ e₂ c₁ c₂ h₁ h₂
    simp only [mkConfig, Option.map_eq_some'] at h₁ h₂
    obtain ⟨u₁, _, hc₁⟩ := h₁
    obtain ⟨u₂, _, hc₂⟩ := h₂
    subst hc₁; subst hc₂
    exact ⟨rfl, rfl, rfl, rfl⟩

theorem config_depends_only_on_SITE_witness :
    mkConfig (siteEnv "https://example.com") =
      mkConfig ⟨fun v => if v = "SITE" then some "https://example.com"
        else some "unrelated"⟩ :=
  config_depends_only_on_SITE.1 _ _ rfl

/-- C4: the module exports exactly the five values SITE_TITLE,
SITE_DESCRIPTION, TWITTER_HANDLE, MY_NAME, SITE_URL; whatever the
environment, the first four take their literal values, and SITE_URL alone
is derived, by a single URL-parsing call applied to the SITE environment
string followed by taking the origin. -/
theorem moduleExports_shape :
    moduleExports.map Prod.fst =
      ["SITE_TITLE", "SITE_DESCRIPTION", "TWITTER_HANDLE", "MY_NAME",
       "SITE_URL"] ∧
    moduleExports.length = 5 ∧
    (∀ e : Env, moduleExports.map (fun p => p.2 e) =
      [some "marpme", some SITE_DESCRIPTION, some "@marpme_", some "marpme",
       ((e.vars "SITE").bind parseURL).map originString]) :=
  ⟨rfl, rfl, fun _ => rfl⟩

/-- C5: whenever the configuration is constructed, each of its five fields
is a non-empty string (the derived origin is never empty: it is either a
scheme-host serialization or the literal "null"). -/
theorem config_fields_nonempty :
    ∀ (e : Env) (c : SiteConfig), mkConfig e = some c →
      c.SITE_TITLE ≠ "" ∧ c.SITE_DESCRIPTION ≠ "" ∧ c.TWITTER_HANDLE ≠ "" ∧
      c.MY_NAME ≠ "" ∧ c.SITE_URL ≠ "" := by
  intro e c h
  simp only [mkConfig, SITE_URL, Option.map_eq_some'] at h
  obtain ⟨url, ⟨u, _, hu⟩, hc⟩ := h
  subst hc
  subst hu
  exact ⟨(by decide : SITE_TITLE ≠ ""), (by decide : SITE_DESCRIPTION ≠ ""),
    (by decide : TWITTER_HANDLE ≠ ""), (by decide : MY_NAME ≠ ""),
    string_mk_ne_empty (originChars_ne_nil u)⟩

theorem config_fields_nonempty_witness :
    exampleConfig.SITE_TITLE ≠ "" ∧ exampleConfig.SITE_DESCRIPTION ≠ "" ∧
      exampleConfig.TWITTER_HANDLE ≠ "" ∧ exampleConfig.MY_NAME ≠ "" ∧
      exampleConfig.SITE_URL ≠ "" :=
  config_fields_nonempty (siteEnv "https://example.com") exampleConfig
    (by decide)

/-- C6: after a successful construction, no operation the module offers
changes any exported value: every sequence of reads leaves the
configuration exactly as constructed. -/
theorem config_immutable :
    ∀ (e : Env) (c : SiteConfig), mkConfig e = some c →
      (∀ ops : List ReadConfig, runReads c ops = c) ∧
      (∀ op : ReadConfig, (runRead c op).2 = c) := by
  intro e c _
  exact ⟨runReads_id c, runRead_snd c⟩

theorem config_immutable_witness :
    runReads exampleConfig
      [ReadConfig.title, ReadConfig.url, ReadConfig.name] = exampleConfig :=
  (config_immutable (siteEnv "https://example.com") exampleConfig
    (by decide)).1 _

end Blog
